import Mathlib

/-!
Shallow embedding of the KhetBuddy marketplace backend's price-prediction
and forecast core (server/storage.ts `MemStorage` and the
`POST /api/predict-price` route handler), together with theorems checking
the natural-language specification against it.

Modelling conventions:
* JS numbers carrying prices are modelled as rationals; record ids and
  timestamps (`Date.getTime()` values) as integers.
* The in-memory `Map` collections are modelled as lists in insertion
  order (`Array.from(map.values())`).
* Sources of randomness are exposed as explicit parameters, as the spec
  allows for test determinism: the multiplicative jitter factor of
  `predictPrice`, a stream `rng : ℕ → ℚ` of `Math.random()` draws for
  `getForecastData`, and the market-comparison coin of the handler.
* Storage operations thread the store state explicitly: each returns its
  result together with the store as it is after the call, so that frame
  properties can be stated.
* JS truthiness of request-body fields is modelled by `truthyNum` /
  `truthyStr` (absent, `0` and `""` are falsy).
-/

namespace KhetBuddy

/-- A price-history record (shared schema `PriceHistory`, as used by
`storage.ts`). -/
structure PriceHistory where
  id : ℤ
  cropTypeId : ℤ
  location : String
  price : ℚ
  quality : String
  recordedDate : ℤ
  deriving DecidableEq, Repr

/-- A crop-type record (shared schema `CropType`). -/
structure CropType where
  id : ℤ
  name : String
  deriving DecidableEq, Repr

/-- A user record, with the fields `storage.ts` touches. -/
structure User where
  id : ℤ
  username : String
  password : String
  name : String
  location : String
  phoneNumber : String
  role : String
  deriving DecidableEq, Repr

/-- A listing record, with the fields `storage.ts` touches. -/
structure Listing where
  id : ℤ
  userId : ℤ
  cropTypeId : ℤ
  quantity : ℚ
  price : ℚ
  quality : String
  location : String
  isActive : Bool
  createdAt : ℤ
  deriving DecidableEq, Repr

/-- A bid record, with the fields `storage.ts` touches. -/
structure Bid where
  id : ℤ
  listingId : ℤ
  userId : ℤ
  status : String
  createdAt : ℤ
  deriving DecidableEq, Repr

/-- A barter-offer record, with the fields `storage.ts` touches. -/
structure BarterOffer where
  id : ℤ
  offerUserId : ℤ
  receiverUserId : ℤ
  offerCropTypeId : ℤ
  receiverCropTypeId : ℤ
  status : String
  createdAt : ℤ
  deriving DecidableEq, Repr

/-- The `MemStorage` state: the six keyed collections (as lists of values
in insertion order) and the six auto-increment id counters. -/
structure Store where
  users : List User
  cropTypes : List CropType
  listings : List Listing
  bids : List Bid
  barterOffers : List BarterOffer
  priceHistory : List PriceHistory
  userId : ℤ
  cropTypeId : ℤ
  listingId : ℤ
  bidId : ℤ
  barterOfferId : ℤ
  priceHistoryId : ℤ
  deriving DecidableEq, Repr

/-- `MemStorage.getPriceHistoryByCropTypeAndLocation`: filter the
price-history collection by exact `cropTypeId` and exact `location`
equality.  Reads only, so the store comes back unchanged. -/
def getPriceHistoryByCropTypeAndLocation (s : Store) (cropTypeId : ℤ) (location : String) :
    List PriceHistory × Store :=
  (s.priceHistory.filter (fun h => decide (h.cropTypeId = cropTypeId ∧ h.location = location)), s)

/-- `MemStorage.getCropTypes`: all crop types in insertion order. -/
def getCropTypes (s : Store) : List CropType × Store :=
  (s.cropTypes, s)

/-- Lower-casing as JS `String.prototype.toLowerCase` behaves on the ASCII
crop names of this repository: every character lower-cased. -/
def lowerStr (str : String) : String := ⟨str.data.map Char.toLower⟩

/-- `MemStorage.getCropTypeByName`: first crop type whose lower-cased name
equals the lower-cased argument. -/
def getCropTypeByName (s : Store) (name : String) : Option CropType × Store :=
  (s.cropTypes.find? (fun ct => decide (lowerStr ct.name = lowerStr name)), s)

/-- `MemStorage.predictPrice`: restrict the history to the requested crop
type and location, then to the requested quality; with no match return the
fallback `20 + bonus(quality)`, otherwise sort by `recordedDate`
descending, take the `min 3 N` most recent entries, average their prices
and multiply by the jitter factor (in the code the factor is drawn as
`1 + (Math.random() * 0.1 - 0.05)`, here it is the parameter `jitter`). -/
def predictPrice (s : Store) (cropTypeId : ℤ) (location quality : String) (jitter : ℚ) :
    ℚ × Store :=
  let res := getPriceHistoryByCropTypeAndLocation s cropTypeId location
  let qualityHistory := res.1.filter (fun h => decide (h.quality = quality))
  if qualityHistory.length = 0 then
    (20 + (if quality = "A" then 10 else if quality = "B" then 5 else 0), res.2)
  else
    let sortedHistory := qualityHistory.mergeSort
      (fun a b => decide (b.recordedDate ≤ a.recordedDate))
    let recentPrices := sortedHistory.take (min 3 sortedHistory.length)
    let avgRecentPrice :=
      (recentPrices.foldl (fun sum h => sum + h.price) 0) / (recentPrices.length : ℚ)
    (avgRecentPrice * jitter, res.2)

/-- The fallback price of the empty-history branch of `predictPrice`. -/
def fallbackPrice (quality : String) : ℚ :=
  20 + (if quality = "A" then 10 else if quality = "B" then 5 else 0)

/-- JS `Math.round`: nearest integer, halves rounding toward positive
infinity. -/
def jsRound (x : ℚ) : ℤ := ⌊x + 1 / 2⌋

/-- The handler's 2-decimal rounding `Math.round(x * 100) / 100`. -/
def round2 (x : ℚ) : ℚ := (jsRound (x * 100) : ℚ) / 100

/-- Decimal rendering of a price that is a whole number of hundredths, the
way JS number-to-string prints the values reachable in the handler (no
trailing zeros, no decimal point for whole numbers). -/
def fmtHundredths (x : ℚ) : String :=
  let n : ℤ := ⌊x * 100⌋
  let sign := if n < 0 then "-" else ""
  let m := n.natAbs
  let whole := m / 100
  let frac := m % 100
  if frac = 0 then sign ++ toString whole
  else if frac % 10 = 0 then sign ++ toString whole ++ "." ++ toString (frac / 10)
  else if frac < 10 then sign ++ toString whole ++ ".0" ++ toString frac
  else sign ++ toString whole ++ "." ++ toString frac

/-- Body of a `POST /api/predict-price` request: each field may be absent
from the JSON body. -/
structure PredictRequest where
  cropTypeId : Option ℤ
  cropTypeName : Option String
  location : Option String
  quality : Option String
  deriving DecidableEq, Repr

/-- Outcome of the `POST /api/predict-price` handler: one of the two
400-class errors, or the JSON success payload. -/
inductive PredictResponse where
  | invalidCropTypeName : PredictResponse
  | missingFields : PredictResponse
  | ok (minPrice maxPrice : ℚ) (priceRange : String) (averagePrice : ℚ)
      (marketComparison : String) : PredictResponse
  deriving DecidableEq, Repr

/-- JS truthiness of an optional numeric body field: absent and `0` are
falsy. -/
def truthyNum : Option ℤ → Bool
  | none => false
  | some n => decide (n ≠ 0)

/-- JS truthiness of an optional string body field: absent and `""` are
falsy. -/
def truthyStr : Option String → Bool
  | none => false
  | some str => decide (str ≠ "")

/-- Tail of the `POST /api/predict-price` handler, after crop-type name
resolution: the missing-fields truthiness check, the call to
`predictPrice`, and the range construction (round to 2 decimals, ±10%
bounds each rounded to 2 decimals, `₹min-max` label, coin-flip market
comparison). -/
def predictPriceFinish (s : Store) (resolvedCropTypeId : Option ℤ) (req : PredictRequest)
    (jitter : ℚ) (coin : Bool) : PredictResponse × Store :=
  if truthyNum resolvedCropTypeId = false ∨ truthyStr req.location = false ∨
      truthyStr req.quality = false then
    (.missingFields, s)
  else
    let res := predictPrice s (resolvedCropTypeId.getD 0) (req.location.getD "")
      (req.quality.getD "") jitter
    let roundedPrice := round2 res.1
    let minPrice := round2 (roundedPrice * (9 / 10))
    let maxPrice := round2 (roundedPrice * (11 / 10))
    (.ok minPrice maxPrice
      ("₹" ++ fmtHundredths minPrice ++ "-" ++ fmtHundredths maxPrice)
      roundedPrice (if coin then "above" else "below"), res.2)

/-- The `POST /api/predict-price` handler: when no truthy `cropTypeId` was
sent but a truthy `cropTypeName` was, resolve the name (failing with the
invalid-crop-type-name error when it matches no stored crop type), then
proceed to the missing-fields check and the prediction. -/
def predictPriceHandler (s : Store) (req : PredictRequest) (jitter : ℚ) (coin : Bool) :
    PredictResponse × Store :=
  if truthyNum req.cropTypeId = false ∧ truthyStr req.cropTypeName = true then
    let res := getCropTypeByName s (req.cropTypeName.getD "")
    match res.1 with
    | none => (.invalidCropTypeName, res.2)
    | some ct => predictPriceFinish res.2 (some ct.id) req jitter coin
  else
    predictPriceFinish s req.cropTypeId req jitter coin

/-- One forecast dataset entry `{cropId, cropName, data}`. -/
structure ForecastDataset where
  cropId : ℤ
  cropName : String
  data : List ℤ
  deriving DecidableEq, Repr

/-- The static demand-tier partition of `getForecastData`. -/
structure DemandGroups where
  high : List String
  moderate : List String
  low : List String
  deriving DecidableEq, Repr

/-- The value returned by `getForecastData`. -/
structure ForecastReport where
  labels : List String
  datasets : List ForecastDataset
  demandGroups : DemandGroups
  deriving DecidableEq, Repr

/-- The fixed 6-month label sequence of `getForecastData`. -/
def forecastMonths : List String := ["May", "Jun", "Jul", "Aug", "Sep", "Oct"]

/-- One random forecast series
`months.map(() => Math.floor(Math.random() * 50) + 20)`, drawing the
`Math.random()` values from the stream `rng` starting at index `k`. -/
def randSeries (rng : ℕ → ℚ) (k : ℕ) : List ℤ :=
  (List.range forecastMonths.length).map (fun j => ⌊rng (k + j) * 50⌋ + 20)

/-- Dataset construction of `getForecastData`: hand-fixed curves for crops
named Tomato, Rice and Onion, six fresh random draws for every other
crop.  `k` counts the random draws consumed so far. -/
def mkDatasets (rng : ℕ → ℚ) : List CropType → ℕ → List ForecastDataset
  | [], _ => []
  | crop :: rest, k =>
    if crop.name = "Tomato" then
      ⟨crop.id, crop.name, [30, 45, 60, 70, 65, 55]⟩ :: mkDatasets rng rest k
    else if crop.name = "Rice" then
      ⟨crop.id, crop.name, [50, 55, 52, 50, 48, 45]⟩ :: mkDatasets rng rest k
    else if crop.name = "Onion" then
      ⟨crop.id, crop.name, [20, 25, 40, 50, 65, 70]⟩ :: mkDatasets rng rest k
    else
      ⟨crop.id, crop.name, randSeries rng k⟩ :: mkDatasets rng rest (k + forecastMonths.length)

/-- `MemStorage.getForecastData`: fixed month labels, datasets for the
first three crop types in stored order, and the hard-coded demand-tier
partition. -/
def getForecastData (s : Store) (rng : ℕ → ℚ) : ForecastReport × Store :=
  let res := getCropTypes s
  let topCrops := res.1.take 3
  (⟨forecastMonths, mkDatasets rng topCrops 0,
    ⟨["Green Chillies", "Tomato", "Eggplant"],
     ["Rice", "Onion", "Cauliflower"],
     ["Potato", "Cabbage", "Carrots"]⟩⟩, res.2)

/-- The set of history entries matching a request exactly on all three of
crop type, location and quality, in one pass (spec wording: "the filtered
set"). -/
def specMatchingHistory (s : Store) (cropTypeId : ℤ) (location quality : String) :
    List PriceHistory :=
  s.priceHistory.filter
    (fun h => decide (h.cropTypeId = cropTypeId ∧ h.location = location ∧ h.quality = quality))

/-- Spec-side definition for the refinement claim about the non-empty
branch, following the spec's words: sort the matching entries by
`recordedDate` descending, take the `min N 3` most recent, and form the
arithmetic mean of their prices. -/
def specRecent3Mean (entries : List PriceHistory) : ℚ :=
  let sorted := entries.mergeSort (fun a b => decide (b.recordedDate ≤ a.recordedDate))
  let recent := sorted.take (min entries.length 3)
  (recent.map PriceHistory.price).sum / ((min entries.length 3 : ℕ) : ℚ)

/-- The crop-type id the handler works with after its name-resolution
step: the id of the crop type a truthy `cropTypeName` resolved to when no
truthy `cropTypeId` was sent, the request's `cropTypeId` otherwise. -/
def handlerResolvedId (s : Store) (req : PredictRequest) : Option ℤ :=
  if truthyNum req.cropTypeId = false ∧ truthyStr req.cropTypeName = true then
    (getCropTypeByName s (req.cropTypeName.getD "")).1.map CropType.id
  else req.cropTypeId

/-- Failure condition of the invalid-crop-type-name error: a crop-type
name had to be resolved (no truthy id, truthy name) and it matched no
stored crop type. -/
def nameResolutionFails (s : Store) (req : PredictRequest) : Prop :=
  truthyNum req.cropTypeId = false ∧ truthyStr req.cropTypeName = true ∧
    (getCropTypeByName s (req.cropTypeName.getD "")).1 = none

/-- Failure condition of the missing-fields error: after name resolution,
one of the three required fields is absent or falsy. -/
def missingFieldAfterResolution (s : Store) (req : PredictRequest) : Prop :=
  truthyNum (handlerResolvedId s req) = false ∨ truthyStr req.location = false ∨
    truthyStr req.quality = false

/-- A concrete store used to instantiate hypotheses of the theorems: the
ten seeded crop types of `initSampleData` in their creation order, and a
small price history. -/
def sampleStore : Store :=
  ⟨[],
   [⟨1, "Rice"⟩, ⟨2, "Wheat"⟩, ⟨3, "Tomato"⟩, ⟨4, "Potato"⟩, ⟨5, "Onion"⟩,
    ⟨6, "Green Chillies"⟩, ⟨7, "Eggplant"⟩, ⟨8, "Cauliflower"⟩, ⟨9, "Cabbage"⟩,
    ⟨10, "Carrots"⟩],
   [], [], [],
   [⟨1, 1, "Pune", 30, "A", 1000⟩, ⟨2, 1, "Pune", 40, "A", 2000⟩,
    ⟨3, 1, "Pune", 26, "B", 2000⟩],
   1, 11, 1, 1, 1, 4⟩

/-! ## Helper lemmas -/

/-- The two-stage filter of `predictPrice` (crop type and location first,
then quality) equals the one-pass filter on all three fields. -/
theorem filter_quality_eq_matching (s : Store) (cropTypeId : ℤ) (location quality : String) :
    (getPriceHistoryByCropTypeAndLocation s cropTypeId location).1.filter
      (fun h => decide (h.quality = quality)) =
    specMatchingHistory s cropTypeId location quality := by
  simp only [getPriceHistoryByCropTypeAndLocation, specMatchingHistory, List.filter_filter]
  apply List.filter_congr
  intro h _
  by_cases h1 : h.quality = quality <;> by_cases h2 : h.cropTypeId = cropTypeId <;>
    by_cases h3 : h.location = location <;> simp [h1, h2, h3]

/-- The price accumulation of `predictPrice`
(`reduce((sum, h) => sum + h.price, 0)`) is the sum of the mapped prices. -/
theorem foldl_add_price (l : List PriceHistory) (a : ℚ) :
    l.foldl (fun sum h => sum + h.price) a = a + (l.map PriceHistory.price).sum := by
  induction l generalizing a with
  | nil => simp
  | cons h t ih => simp [ih, add_assoc]

/-- With no history entry matching all three of crop type, location and
quality, `predictPrice` takes its fallback branch and leaves the store
unchanged. -/
theorem predictPrice_no_match (s : Store) (cropTypeId : ℤ) (location quality : String)
    (jitter : ℚ)
    (hnone : ∀ h ∈ s.priceHistory,
      ¬(h.cropTypeId = cropTypeId ∧ h.location = location ∧ h.quality = quality)) :
    predictPrice s cropTypeId location quality jitter = (fallbackPrice quality, s) := by
  have hq : (getPriceHistoryByCropTypeAndLocation s cropTypeId location).1.filter
      (fun h => decide (h.quality = quality)) = [] := by
    simp only [getPriceHistoryByCropTypeAndLocation, List.filter_filter,
      List.filter_eq_nil_iff]
    intro a ha
    simp only [Bool.and_eq_true, decide_eq_true_eq]
    rintro ⟨hq1, hc, hl⟩
    exact hnone a ha ⟨hc, hl, hq1⟩
  simp only [predictPrice, hq, List.length_nil, fallbackPrice]
  rfl

/-- When a required field is absent or falsy, the handler tail produces
the missing-fields error. -/
theorem finish_missing (s : Store) (rid : Option ℤ) (req : PredictRequest) (jitter : ℚ)
    (coin : Bool)
    (hmf : truthyNum rid = false ∨ truthyStr req.location = false ∨
      truthyStr req.quality = false) :
    predictPriceFinish s rid req jitter coin = (PredictResponse.missingFields, s) := by
  unfold predictPriceFinish
  rw [if_pos hmf]

/-- When every required field is truthy, the handler tail produces a
success payload. -/
theorem finish_ok (s : Store) (rid : Option ℤ) (req : PredictRequest) (jitter : ℚ)
    (coin : Bool)
    (hmf : ¬(truthyNum rid = false ∨ truthyStr req.location = false ∨
      truthyStr req.quality = false)) :
    ∃ mn mx pr avg mc,
      predictPriceFinish s rid req jitter coin = (PredictResponse.ok mn mx pr avg mc,
        (predictPrice s (rid.getD 0) (req.location.getD "") (req.quality.getD "") jitter).2) := by
  unfold predictPriceFinish
  rw [if_neg hmf]
  exact ⟨_, _, _, _, _, rfl⟩

/-- Every random forecast series has six entries, one per month label. -/
theorem randSeries_length (rng : ℕ → ℚ) (k : ℕ) : (randSeries rng k).length = 6 := by
  simp [randSeries, forecastMonths]

/-- With `Math.random()` draws in `[0, 1)`, every entry of a random
forecast series lies in `[20, 69]`. -/
theorem randSeries_bounds (rng : ℕ → ℚ) (k : ℕ) (hr : ∀ i, 0 ≤ rng i ∧ rng i < 1) :
    ∀ v ∈ randSeries rng k, 20 ≤ v ∧ v ≤ 69 := by
  intro v hv
  simp only [randSeries, List.mem_map] at hv
  obtain ⟨j, _, rfl⟩ := hv
  obtain ⟨h0, h1⟩ := hr (k + j)
  constructor
  · have : (0 : ℤ) ≤ ⌊rng (k + j) * 50⌋ := Int.floor_nonneg.mpr (by positivity)
    omega
  · have : ⌊rng (k + j) * 50⌋ < 50 := Int.floor_lt.mpr (by push_cast; linarith)
    omega

/-- Every dataset entry named Onion carries the fixed Onion curve, over
any crop list and any random stream. -/
theorem mkDatasets_onion_fixed (rng : ℕ → ℚ) (l : List CropType) (k : ℕ) :
    ∀ d ∈ mkDatasets rng l k, d.cropName = "Onion" → d.data = [20, 25, 40, 50, 65, 70] := by
  induction l generalizing k with
  | nil => intro d hd; simp [mkDatasets] at hd
  | cons c rest ih =>
    intro d hd hname
    unfold mkDatasets at hd
    by_cases h1 : c.name = "Tomato"
    · rw [if_pos h1] at hd
      rcases List.mem_cons.mp hd with rfl | hd2
      · simp at hname; rw [hname] at h1; exact absurd h1 (by decide)
      · exact ih k d hd2 hname
    · rw [if_neg h1] at hd
      by_cases h2 : c.name = "Rice"
      · rw [if_pos h2] at hd
        rcases List.mem_cons.mp hd with rfl | hd2
        · simp at hname; rw [hname] at h2; exact absurd h2 (by decide)
        · exact ih k d hd2 hname
      · rw [if_neg h2] at hd
        by_cases h3 : c.name = "Onion"
        · rw [if_pos h3] at hd
          rcases List.mem_cons.mp hd with rfl | hd2
          · rfl
          · exact ih k d hd2 hname
        · rw [if_neg h3] at hd
          rcases List.mem_cons.mp hd with rfl | hd2
          · exact absurd hname h3
          · exact ih (k + forecastMonths.length) d hd2 hname

/-! ## Claim theorems -/

/-- Claim C1: for every cropTypeId, location and quality such that no
PriceHistory entry matches all three exactly, `predictPrice` returns
exactly `20 + bonus(quality)` (10 for "A", 5 for "B", 0 otherwise), for
every value of the jitter factor: no jitter is applied in this branch. -/
theorem predictPrice_fallback_no_history (s : Store) (cropTypeId : ℤ)
    (location quality : String) (jitter : ℚ)
    (hnone : ∀ h ∈ s.priceHistory,
      ¬(h.cropTypeId = cropTypeId ∧ h.location = location ∧ h.quality = quality)) :
    (predictPrice s cropTypeId location quality jitter).1 =
      20 + (if quality = "A" then 10 else if quality = "B" then 5 else 0) := by
  rw [predictPrice_no_match s cropTypeId location quality jitter hnone]
  rfl

/-- Claim C1 witness: on the sample store no entry matches crop type 2 at
Nagpur, so the prediction is the grade-A fallback 30, at jitter 21/20. -/
theorem predictPrice_fallback_no_history_witness :
    (predictPrice sampleStore 2 "Nagpur" "A" (21 / 20)).1 =
      20 + (if "A" = "A" then 10 else if "A" = "B" then 5 else 0) :=
  predictPrice_fallback_no_history sampleStore 2 "Nagpur" "A" (21 / 20) (by decide)

/-- Claim C2: for every non-empty set of matching PriceHistory entries,
the pre-jitter prediction (jitter factor 1) equals the arithmetic mean of
the prices of the `min N 3` entries with the latest recordedDate (sorted
descending, first up-to-3 taken), as the spec-side `specRecent3Mean`
states it. -/
theorem predictPrice_recent_mean (s : Store) (cropTypeId : ℤ) (location quality : String)
    (hne : specMatchingHistory s cropTypeId location quality ≠ []) :
    (predictPrice s cropTypeId location quality 1).1 =
      specRecent3Mean (specMatchingHistory s cropTypeId location quality) := by
  have hfq := filter_quality_eq_matching s cropTypeId location quality
  have hlen : (specMatchingHistory s cropTypeId location quality).length ≠ 0 := by
    simpa [List.length_eq_zero] using hne
  have hsortlen : ((specMatchingHistory s cropTypeId location quality).mergeSort
      (fun a b => decide (b.recordedDate ≤ a.recordedDate))).length =
      (specMatchingHistory s cropTypeId location quality).length :=
    (List.mergeSort_perm _ _).length_eq
  simp only [predictPrice, hfq, hlen, if_neg, specRecent3Mean, hsortlen, mul_one,
    foldl_add_price, zero_add, List.length_take, Nat.min_comm 3, if_false]
  rw [min_right_comm, min_self]

/-- Claim C2 witness: crop type 1 at Pune with grade "A" has two matching
entries in the sample store, so the hypotheses hold there. -/
theorem predictPrice_recent_mean_witness :
    (predictPrice sampleStore 1 "Pune" "A" 1).1 =
      specRecent3Mean (specMatchingHistory sampleStore 1 "Pune" "A") :=
  predictPrice_recent_mean sampleStore 1 "Pune" "A" (by decide)

/-- Claim C3: under the invariant that every stored price is positive,
`predictPrice` returns a strictly positive value for every request and
every jitter factor in the stated range `[0.95, 1.05]`. -/
theorem predictPrice_positive (s : Store) (cropTypeId : ℤ) (location quality : String)
    (jitter : ℚ)
    (hpos : ∀ h ∈ s.priceHistory, 0 < h.price)
    (hj : 19 / 20 ≤ jitter) (hj2 : jitter ≤ 21 / 20) :
    0 < (predictPrice s cropTypeId location quality jitter).1 := by
  unfold predictPrice
  rw [apply_ite Prod.fst]
  set qh := (getPriceHistoryByCropTypeAndLocation s cropTypeId location).1.filter
    (fun h => decide (h.quality = quality)) with hqh
  set sorted := qh.mergeSort (fun a b => decide (b.recordedDate ≤ a.recordedDate))
    with hsorted
  set recent := sorted.take (min 3 sorted.length) with hrecent
  by_cases h0 : qh.length = 0
  · rw [if_pos h0]
    dsimp only
    have hb : (0 : ℚ) ≤ if quality = "A" then 10 else if quality = "B" then 5 else 0 := by
      split
      · norm_num
      · split <;> norm_num
    linarith
  · rw [if_neg h0]
    dsimp only
    have hL : sorted.length = qh.length := (List.mergeSort_perm qh _).length_eq
    have hrlen : 0 < recent.length := by
      rw [hrecent, List.length_take]
      omega
    have hrne : recent ≠ [] := List.length_pos.mp hrlen
    have hmem : ∀ h ∈ recent, h ∈ s.priceHistory := by
      intro h hh
      have h1 : h ∈ sorted := List.mem_of_mem_take hh
      have h2 : h ∈ qh := ((List.mergeSort_perm qh _).mem_iff).mp h1
      have h3 := List.mem_of_mem_filter h2
      simp only [getPriceHistoryByCropTypeAndLocation] at h3
      exact List.mem_of_mem_filter h3
    have hsum : 0 < (recent.map PriceHistory.price).sum := by
      apply List.sum_pos
      · intro x hx
        obtain ⟨h, hh, rfl⟩ := List.mem_map.mp hx
        exact hpos h (hmem h hh)
      · simpa using hrne
    have hlenq : (0 : ℚ) < (recent.length : ℚ) := by exact_mod_cast hrlen
    have havg : 0 < (recent.foldl (fun sum h => sum + h.price) 0) / (recent.length : ℚ) := by
      rw [foldl_add_price, zero_add]
      exact div_pos hsum hlenq
    have hjpos : (0 : ℚ) < jitter := lt_of_lt_of_le (by norm_num) hj
    exact mul_pos havg hjpos

/-- Claim C3 witness: the sample store's prices are all positive, and the
jitter factor 1 lies in the stated range. -/
theorem predictPrice_positive_witness :
    0 < (predictPrice sampleStore 1 "Pune" "A" 1).1 :=
  predictPrice_positive sampleStore 1 "Pune" "A" 1 (by decide) (by norm_num) (by norm_num)

/-- Claim C4: on the success path the API layer serves exactly the
prediction rounded to 2 decimals as averagePrice, min and max prices
obtained by rounding 90% and 110% of that rounded value to 2 decimals,
and a label of the currency symbol, minPrice, a hyphen and maxPrice; in
particular an averagePrice of 100 yields exactly 90 and 110. -/
theorem predict_range_construction (s : Store) (resolved : Option ℤ) (req : PredictRequest)
    (jitter : ℚ) (coin : Bool)
    (hid : truthyNum resolved = true) (hloc : truthyStr req.location = true)
    (hq : truthyStr req.quality = true) :
    ((predictPriceFinish s resolved req jitter coin).1 =
      (let p := (predictPrice s (resolved.getD 0) (req.location.getD "")
          (req.quality.getD "") jitter).1
       let avg := round2 p
       let mn := round2 (avg * (9 / 10))
       let mx := round2 (avg * (11 / 10))
       PredictResponse.ok mn mx ("₹" ++ fmtHundredths mn ++ "-" ++ fmtHundredths mx) avg
         (if coin then "above" else "below"))) ∧
    round2 (100 : ℚ) = 100 ∧ round2 ((100 : ℚ) * (9 / 10)) = 90 ∧
      round2 ((100 : ℚ) * (11 / 10)) = 110 := by
  refine ⟨?_, by norm_num [round2, jsRound], by norm_num [round2, jsRound],
    by norm_num [round2, jsRound]⟩
  rw [predictPriceFinish, if_neg]
  simp [hid, hloc, hq]

/-- Claim C4 witness: the range construction at a concrete truthy
request. -/
theorem predict_range_construction_witness :
    ((predictPriceFinish sampleStore (some 1) ⟨some 1, none, some "Pune", some "A"⟩
        1 true).1 =
      (let p := (predictPrice sampleStore ((some (1 : ℤ)).getD 0)
          ((some "Pune").getD "") ((some "A").getD "") 1).1
       let avg := round2 p
       let mn := round2 (avg * (9 / 10))
       let mx := round2 (avg * (11 / 10))
       PredictResponse.ok mn mx ("₹" ++ fmtHundredths mn ++ "-" ++ fmtHundredths mx) avg
         (if true then "above" else "below"))) ∧
    round2 (100 : ℚ) = 100 ∧ round2 ((100 : ℚ) * (9 / 10)) = 90 ∧
      round2 ((100 : ℚ) * (11 / 10)) = 110 :=
  predict_range_construction sampleStore (some 1) ⟨some 1, none, some "Pune", some "A"⟩
    1 true rfl rfl rfl

/-- Claim C5 counterexample: a request with all three required fields
present (cropTypeId 5, location the empty string, quality "A") and no
crop-type name still fails, with the missing-fields error: the handler
tests JS truthiness, not absence, so the claim's "exactly when ... absent"
does not hold as stated. -/
theorem predict_handler_error_despite_present_fields :
    (predictPriceHandler sampleStore ⟨some 5, none, some "", some "A"⟩ 1 true).1 =
      PredictResponse.missingFields ∧
    (some ("" : String) ≠ none ∧ some (5 : ℤ) ≠ none ∧ some ("A" : String) ≠ none) ∧
    (⟨some 5, none, some "", some "A"⟩ : PredictRequest).cropTypeName = none :=
  ⟨rfl, ⟨by simp, by simp, by simp⟩, rfl⟩

/-- Claim C5 (amended): the prediction request fails with an
InvalidInput-class error exactly when (a) a truthy crop-type name with no
truthy cropTypeId resolves to no stored crop type ("unknown crop type"),
or (b) after name resolution, any of cropTypeId, location or quality is
absent or falsy (0 for the id, "" for the strings) ("missing required
field"); otherwise it returns a success payload, so no partial results on
failure. -/
theorem predict_handler_error_characterization (s : Store) (req : PredictRequest)
    (jitter : ℚ) (coin : Bool) :
    (nameResolutionFails s req →
      (predictPriceHandler s req jitter coin).1 = PredictResponse.invalidCropTypeName) ∧
    (¬nameResolutionFails s req → missingFieldAfterResolution s req →
      (predictPriceHandler s req jitter coin).1 = PredictResponse.missingFields) ∧
    ((∃ mn mx pr avg mc, (predictPriceHandler s req jitter coin).1 =
        PredictResponse.ok mn mx pr avg mc) ↔
      ¬nameResolutionFails s req ∧ ¬missingFieldAfterResolution s req) := by
  by_cases hA : truthyNum req.cropTypeId = false ∧ truthyStr req.cropTypeName = true
  · cases hfind : (getCropTypeByName s (req.cropTypeName.getD "")).1 with
    | none =>
      have hres : (predictPriceHandler s req jitter coin).1 =
          PredictResponse.invalidCropTypeName := by
        simp only [predictPriceHandler, if_pos hA, hfind]
      refine ⟨fun _ => hres, fun hnf _ => absurd ⟨hA.1, hA.2, hfind⟩ hnf, ?_⟩
      constructor
      · rintro ⟨mn, mx, pr, avg, mc, h⟩
        rw [hres] at h
        exact absurd h (by simp)
      · rintro ⟨hnf, _⟩
        exact absurd ⟨hA.1, hA.2, hfind⟩ hnf
    | some ct =>
      have hnf : ¬nameResolutionFails s req := by
        unfold nameResolutionFails
        simp [hfind]
      have hstep : predictPriceHandler s req jitter coin =
          predictPriceFinish (getCropTypeByName s (req.cropTypeName.getD "")).2
            (some ct.id) req jitter coin := by
        simp only [predictPriceHandler, if_pos hA, hfind]
      have hresolved : handlerResolvedId s req = some ct.id := by
        unfold handlerResolvedId
        rw [if_pos hA, hfind]
        rfl
      unfold missingFieldAfterResolution
      rw [hresolved]
      by_cases hmf : truthyNum (some ct.id) = false ∨ truthyStr req.location = false ∨
          truthyStr req.quality = false
      · have hres : (predictPriceHandler s req jitter coin).1 =
            PredictResponse.missingFields := by
          rw [hstep, finish_missing _ _ _ _ _ hmf]
        refine ⟨fun h => absurd h hnf, fun _ _ => hres, ?_⟩
        constructor
        · rintro ⟨mn, mx, pr, avg, mc, h⟩
          rw [hres] at h
          exact absurd h (by simp)
        · rintro ⟨_, hn⟩
          exact absurd hmf hn
      · obtain ⟨mn, mx, pr, avg, mc, hok⟩ := finish_ok _ (some ct.id) req jitter coin hmf
        have hres : (predictPriceHandler s req jitter coin).1 =
            PredictResponse.ok mn mx pr avg mc := by
          rw [hstep, hok]
        refine ⟨fun h => absurd h hnf, fun _ hm => absurd hm hmf, ?_⟩
        exact ⟨fun _ => ⟨hnf, hmf⟩, fun _ => ⟨mn, mx, pr, avg, mc, hres⟩⟩
  · have hnf : ¬nameResolutionFails s req := fun h => hA ⟨h.1, h.2.1⟩
    have hstep : predictPriceHandler s req jitter coin =
        predictPriceFinish s req.cropTypeId req jitter coin := by
      simp only [predictPriceHandler, if_neg hA]
    have hresolved : handlerResolvedId s req = req.cropTypeId := by
      unfold handlerResolvedId
      rw [if_neg hA]
    unfold missingFieldAfterResolution
    rw [hresolved]
    by_cases hmf : truthyNum req.cropTypeId = false ∨ truthyStr req.location = false ∨
        truthyStr req.quality = false
    · have hres : (predictPriceHandler s req jitter coin).1 =
          PredictResponse.missingFields := by
        rw [hstep, finish_missing _ _ _ _ _ hmf]
      refine ⟨fun h => absurd h hnf, fun _ _ => hres, ?_⟩
      constructor
      · rintro ⟨mn, mx, pr, avg, mc, h⟩
        rw [hres] at h
        exact absurd h (by simp)
      · rintro ⟨_, hn⟩
        exact absurd hmf hn
    · obtain ⟨mn, mx, pr, avg, mc, hok⟩ := finish_ok s req.cropTypeId req jitter coin hmf
      have hres : (predictPriceHandler s req jitter coin).1 =
          PredictResponse.ok mn mx pr avg mc := by
        rw [hstep, hok]
      refine ⟨fun h => absurd h hnf, fun _ hm => absurd hm hmf, ?_⟩
      exact ⟨fun _ => ⟨hnf, hmf⟩, fun _ => ⟨mn, mx, pr, avg, mc, hres⟩⟩

/-- Claim C6: with crop types seeded in order Rice, Wheat, Tomato, ...,
`getForecastData` picks exactly those first three as top crops, returns
the fixed 6-month label sequence, gives Rice and Tomato their exact fixed
curves, gives Wheat a 6-entry series of integers in `[20, 69]`, and would
give any selected crop named Onion its fixed curve. -/
theorem getForecastData_seeded_top_crops (s : Store) (rng : ℕ → ℚ) (i1 i2 i3 : ℤ)
    (rest : List CropType)
    (hseed : s.cropTypes = ⟨i1, "Rice"⟩ :: ⟨i2, "Wheat"⟩ :: ⟨i3, "Tomato"⟩ :: rest)
    (hr : ∀ i, 0 ≤ rng i ∧ rng i < 1) :
    ((getForecastData s rng).1.labels = ["May", "Jun", "Jul", "Aug", "Sep", "Oct"] ∧
      (getForecastData s rng).1.labels.length = 6) ∧
    (getForecastData s rng).1.datasets =
      [⟨i1, "Rice", [50, 55, 52, 50, 48, 45]⟩,
       ⟨i2, "Wheat", randSeries rng 0⟩,
       ⟨i3, "Tomato", [30, 45, 60, 70, 65, 55]⟩] ∧
    ((randSeries rng 0).length = 6 ∧ ∀ v ∈ randSeries rng 0, 20 ≤ v ∧ v ≤ 69) ∧
    (∀ s2 rng2, ∀ d ∈ (getForecastData s2 rng2).1.datasets,
      d.cropName = "Onion" → d.data = [20, 25, 40, 50, 65, 70]) := by
  refine ⟨⟨rfl, rfl⟩, ?_, ⟨randSeries_length rng 0, randSeries_bounds rng 0 hr⟩, ?_⟩
  · simp [getForecastData, getCropTypes, hseed, mkDatasets]
  · intro s2 rng2 d hd
    exact mkDatasets_onion_fixed rng2 _ 0 d hd

/-- Claim C6 witness: the sample store is seeded Rice, Wheat, Tomato
first, and the constant stream 1/2 is a valid random stream. -/
theorem getForecastData_seeded_top_crops_witness :
    ((getForecastData sampleStore (fun _ => 1 / 2)).1.labels =
        ["May", "Jun", "Jul", "Aug", "Sep", "Oct"] ∧
      (getForecastData sampleStore (fun _ => 1 / 2)).1.labels.length = 6) ∧
    (getForecastData sampleStore (fun _ => 1 / 2)).1.datasets =
      [⟨1, "Rice", [50, 55, 52, 50, 48, 45]⟩,
       ⟨2, "Wheat", randSeries (fun _ => 1 / 2) 0⟩,
       ⟨3, "Tomato", [30, 45, 60, 70, 65, 55]⟩] ∧
    ((randSeries (fun _ => 1 / 2) 0).length = 6 ∧
      ∀ v ∈ randSeries (fun _ => 1 / 2) 0, 20 ≤ v ∧ v ≤ 69) ∧
    (∀ s2 rng2, ∀ d ∈ (getForecastData s2 rng2).1.datasets,
      d.cropName = "Onion" → d.data = [20, 25, 40, 50, 65, 70]) :=
  getForecastData_seeded_top_crops sampleStore (fun _ => 1 / 2) 1 2 3
    [⟨4, "Potato"⟩, ⟨5, "Onion"⟩, ⟨6, "Green Chillies"⟩, ⟨7, "Eggplant"⟩,
     ⟨8, "Cauliflower"⟩, ⟨9, "Cabbage"⟩, ⟨10, "Carrots"⟩]
    rfl (fun _ => ⟨by norm_num, by norm_num⟩)

/-- Claim C7: for every state of the record store and every random
stream, the demand groups of `getForecastData` are the same fixed
partition, whose high tier is exactly Green Chillies, Tomato and
Eggplant: static metadata, not computed from PriceHistory or Listings. -/
theorem getForecastData_demand_groups_static (s : Store) (rng : ℕ → ℚ) :
    (getForecastData s rng).1.demandGroups =
      ⟨["Green Chillies", "Tomato", "Eggplant"],
       ["Rice", "Onion", "Cauliflower"],
       ["Potato", "Cabbage", "Carrots"]⟩ ∧
    (getForecastData s rng).1.demandGroups.high =
      ["Green Chillies", "Tomato", "Eggplant"] :=
  ⟨rfl, rfl⟩

/-- Claim C8: `predictPrice` and `getForecastData` (and the read
operations they call) leave the entire store unchanged: every stored
collection and counter after the call is the store as it was before, so
nothing is created, mutated, deleted, or persisted. -/
theorem prediction_preserves_store (s : Store) (cropTypeId : ℤ)
    (location quality name : String) (jitter : ℚ) (rng : ℕ → ℚ) :
    (predictPrice s cropTypeId location quality jitter).2 = s ∧
    (getForecastData s rng).2 = s ∧
    (getPriceHistoryByCropTypeAndLocation s cropTypeId location).2 = s ∧
    (getCropTypes s).2 = s ∧
    (getCropTypeByName s name).2 = s := by
  refine ⟨?_, rfl, rfl, rfl, rfl⟩
  unfold predictPrice
  rw [apply_ite Prod.snd]
  simp [getPriceHistoryByCropTypeAndLocation]

/-- Claim C9 counterexample: the numeric cropTypeId 0 identifies no
stored crop type and location and quality are present, yet the request
does not succeed with a fallback range: JS truthiness makes the handler
reject 0 with the missing-fields error. -/
theorem predict_handler_zero_id_rejected :
    (predictPriceHandler sampleStore ⟨some 0, none, some "Pune", some "A"⟩ 1 true).1 =
      PredictResponse.missingFields ∧
    (∀ ct ∈ sampleStore.cropTypes, ct.id ≠ 0) ∧
    (∀ h ∈ sampleStore.priceHistory, ∃ ct ∈ sampleStore.cropTypes,
      h.cropTypeId = ct.id) :=
  ⟨rfl, by decide, by decide⟩

/-- Claim C9 (amended): for every nonzero numeric cropTypeId identifying
no stored crop type, with location and quality present and non-empty, and
a store whose history references only stored crop types, the request does
not fail with the unknown-crop-type error: `predictPrice` matches no
history and the handler returns the range built from the fallback price
`20 + bonus(quality)`. -/
theorem predict_handler_unknown_id_fallback (s : Store) (n : ℤ) (loc q : String)
    (jitter : ℚ) (coin : Bool)
    (hn : n ≠ 0) (hloc : loc ≠ "") (hq : q ≠ "")
    (href : ∀ h ∈ s.priceHistory, ∃ ct ∈ s.cropTypes, h.cropTypeId = ct.id)
    (hid : ∀ ct ∈ s.cropTypes, ct.id ≠ n) :
    (predictPriceHandler s ⟨some n, none, some loc, some q⟩ jitter coin).1 =
      PredictResponse.ok (round2 (round2 (fallbackPrice q) * (9 / 10)))
        (round2 (round2 (fallbackPrice q) * (11 / 10)))
        ("₹" ++ fmtHundredths (round2 (round2 (fallbackPrice q) * (9 / 10))) ++ "-" ++
          fmtHundredths (round2 (round2 (fallbackPrice q) * (11 / 10))))
        (round2 (fallbackPrice q))
        (if coin then "above" else "below") := by
  have htn : truthyNum (some n) = true := by simp [truthyNum, hn]
  have hstep : predictPriceHandler s ⟨some n, none, some loc, some q⟩ jitter coin =
      predictPriceFinish s (some n) ⟨some n, none, some loc, some q⟩ jitter coin := by
    unfold predictPriceHandler
    rw [if_neg]
    rintro ⟨h1, _⟩
    rw [htn] at h1
    simp at h1
  have hnone : ∀ h ∈ s.priceHistory,
      ¬(h.cropTypeId = n ∧ h.location = loc ∧ h.quality = q) := by
    rintro h hh ⟨hc, _, _⟩
    obtain ⟨ct, hct, heq⟩ := href h hh
    exact hid ct hct (heq ▸ hc)
  have hpred := predictPrice_no_match s n loc q jitter hnone
  rw [hstep]
  unfold predictPriceFinish
  rw [if_neg]
  · simp only [Option.getD_some, hpred]
  · rintro (h1 | h2 | h3)
    · rw [htn] at h1; simp at h1
    · simp [truthyStr, hloc] at h2
    · simp [truthyStr, hq] at h3

/-- Claim C9 witness: crop type 999 is not in the sample store, so a
request for it succeeds with the grade-A fallback range. -/
theorem predict_handler_unknown_id_fallback_witness :
    (predictPriceHandler sampleStore ⟨some 999, none, some "Pune", some "A"⟩ 1 true).1 =
      PredictResponse.ok (round2 (round2 (fallbackPrice "A") * (9 / 10)))
        (round2 (round2 (fallbackPrice "A") * (11 / 10)))
        ("₹" ++ fmtHundredths (round2 (round2 (fallbackPrice "A") * (9 / 10))) ++ "-" ++
          fmtHundredths (round2 (round2 (fallbackPrice "A") * (11 / 10))))
        (round2 (fallbackPrice "A"))
        (if true then "above" else "below") :=
  predict_handler_unknown_id_fallback sampleStore 999 "Pune" "A" 1 true
    (by decide) (by decide) (by decide) (by decide) (by decide)

/-- Claim C10: crop-type name resolution is case-insensitive: a stored
crop type is found by any name with the same lower-casing, and the found
crop type is a stored one; by contrast, history retrieval matches the
location (and crop type) exactly. -/
theorem getCropTypeByName_case_insensitive (s : Store) (c : CropType) (name : String)
    (hc : c ∈ s.cropTypes) (hlow : lowerStr name = lowerStr c.name) :
    (∃ c2, (getCropTypeByName s name).1 = some c2 ∧ c2 ∈ s.cropTypes) ∧
    (∀ cid loc h2, h2 ∈ (getPriceHistoryByCropTypeAndLocation s cid loc).1 →
      h2.location = loc ∧ h2.cropTypeId = cid) := by
  constructor
  · have hsome : (s.cropTypes.find?
        (fun ct => decide (lowerStr ct.name = lowerStr name))).isSome := by
      rw [List.find?_isSome]
      exact ⟨c, hc, by simp [hlow]⟩
    obtain ⟨c2, hc2⟩ := Option.isSome_iff_exists.mp hsome
    exact ⟨c2, hc2, List.mem_of_find?_eq_some hc2⟩
  · intro cid loc h2 hmem
    simp only [getPriceHistoryByCropTypeAndLocation, List.mem_filter,
      decide_eq_true_eq] at hmem
    exact ⟨hmem.2.2, hmem.2.1⟩

/-- Claim C10 witness: the stored crop type Rice is found under the
spelling "rICE". -/
theorem getCropTypeByName_case_insensitive_witness :
    (∃ c2, (getCropTypeByName sampleStore "rICE").1 = some c2 ∧
      c2 ∈ sampleStore.cropTypes) ∧
    (∀ cid loc h2, h2 ∈ (getPriceHistoryByCropTypeAndLocation sampleStore cid loc).1 →
      h2.location = loc ∧ h2.cropTypeId = cid) :=
  getCropTypeByName_case_insensitive sampleStore ⟨1, "Rice"⟩ "rICE"
    (by decide) (by decide)

end KhetBuddy
